import Mathlib

/-!
Shallow embedding of the RTDM driver-model surface of Xenomai
(include/rtdm/rtdm_driver.h) and of the rtipc protocol driver
(ksrc/drivers/ipc/rtipc.c), together with proofs about the
device-context lifecycle, the dual-context dispatch contract, the
synchronization primitives and the rtipc error paths.

Pure C functions become Lean functions; the atomic counter of a device
context is an `Int` kept in the signed 32-bit range, updated through an
explicit two's-complement wrap (atomic_t is a wrapping 32-bit C int);
external
effects (scheduling the finalization APC, xnfree calls, wakeups of
blocked waiters) are returned as explicit components of the result so
theorems can speak about them.  Parts of the RTDM core whose bodies are
not in the analyzed sources (the dispatcher, __rtdm_synch_flush, the
wait services, rtdm_dev_unregister) are modelled from the specification
and marked as such in their doc comments.
-/

namespace Xenomai

/-! ### Context flags (rtdm_driver.h, Context Flags block) -/

/-- Bit number set by RTDM if the device instance was created in
non-real-time context. -/
def RTDM_CREATED_IN_NRT : Nat := 0

/-- Bit number set by RTDM when the device is being closed. -/
def RTDM_CLOSING : Nat := 1

/-! ### Device context and its lock counter (rtdm_driver.h) -/

/-- Smallest value of a 32-bit C int: -2^31. -/
def INT32_MIN : Int := -2147483648

/-- Largest value of a 32-bit C int: 2^31 - 1. -/
def INT32_MAX : Int := 2147483647

/-- Two's-complement wrap of an integer into the signed 32-bit range
[-2^31, 2^31): the arithmetic every atomic_t update performs. -/
def int32wrap (n : Int) : Int := (n + 2147483648) % 4294967296 - 2147483648

/-- The wrapped value always lies in the signed 32-bit range. -/
def int32wrap_range (n : Int) :
    INT32_MIN ≤ int32wrap n ∧ int32wrap n ≤ INT32_MAX := by
  simp only [int32wrap, INT32_MIN, INT32_MAX]
  omega

/-- Shallow embedding of struct rtdm_dev_context: the two fields the
lifecycle claims depend on, the `context_flags` bitset and the atomic
`close_lock_count`.  The counter is an atomic_t, a wrapping 32-bit C
int: it is carried as an `Int` constrained to the signed 32-bit range
(every machine state satisfies this; the increment and decrement below
re-wrap explicitly).  The fd, the ops and device pointers, the reserved
area and the trailing driver-private region carry no lifecycle state
and are omitted. -/
structure RtdmDevContext where
  context_flags : Nat
  close_lock_count : Int
  close_lock_count_range :
    INT32_MIN ≤ close_lock_count ∧ close_lock_count ≤ INT32_MAX := by decide

/-- test_bit(RTDM_CLOSING, &context->context_flags). -/
def ctxClosing (c : RtdmDevContext) : Bool :=
  Nat.testBit c.context_flags RTDM_CLOSING

/-- The CONTEXT_IS_LOCKED(context) macro:
close_lock_count > 1, or the RTDM_CLOSING bit is set and
close_lock_count > 0. -/
def CONTEXT_IS_LOCKED (c : RtdmDevContext) : Bool :=
  decide (c.close_lock_count > 1) ||
    (ctxClosing c && decide (c.close_lock_count > 0))

/-- rtdm_context_lock: atomic_inc(&context->close_lock_count), a
wrapping 32-bit increment.  The XENO_ASSERT on CONTEXT_IS_LOCKED is a
debug-only warning and does not change the state. -/
def rtdm_context_lock (c : RtdmDevContext) : RtdmDevContext :=
  { context_flags := c.context_flags,
    close_lock_count := int32wrap (c.close_lock_count + 1),
    close_lock_count_range := int32wrap_range _ }

/-- rtdm_context_unlock: atomic_dec_and_test on close_lock_count (a
wrapping 32-bit decrement testing the stored result for zero); when the
decremented counter is exactly zero, rthal_apc_schedule(rtdm_apc) is
invoked.  The Bool component records whether that APC (deferred
finalization) was scheduled by this call. -/
def rtdm_context_unlock (c : RtdmDevContext) : RtdmDevContext × Bool :=
  ({ context_flags := c.context_flags,
     close_lock_count := int32wrap (c.close_lock_count - 1),
     close_lock_count_range := int32wrap_range _ },
   int32wrap (c.close_lock_count - 1) == 0)

/-- rtdm_context_put is an alias for rtdm_context_unlock. -/
def rtdm_context_put (c : RtdmDevContext) : RtdmDevContext × Bool :=
  rtdm_context_unlock c

/-! ### Lifecycle traces for the reference-counting protocol -/

/-- set_bit(bitNum, &flags) on the flags word. -/
def set_bit (bitNum : Nat) (flags : Nat) : Nat := flags ||| (1 <<< bitNum)

/-- A device-context lifecycle state: the context itself plus the number
of times the deferred-finalization APC has been scheduled so far. -/
structure LifeState where
  ctx : RtdmDevContext
  sched : Nat

/-- The operations of the lifecycle protocol: rtdm_context_lock,
rtdm_context_unlock, and the close request which sets the RTDM_CLOSING
bit and then drops the baseline open reference with one
rtdm_context_unlock. -/
inductive CtxOp
  | lock
  | unlock
  | requestClose
deriving DecidableEq, Repr

/-- One lifecycle step, built directly on rtdm_context_lock and
rtdm_context_unlock. -/
def lifeStep (s : LifeState) : CtxOp → LifeState
  | .lock => { s with ctx := rtdm_context_lock s.ctx }
  | .unlock =>
    let r := rtdm_context_unlock s.ctx
    { ctx := r.1, sched := if r.2 then s.sched + 1 else s.sched }
  | .requestClose =>
    let c : RtdmDevContext :=
      { s.ctx with context_flags := set_bit RTDM_CLOSING s.ctx.context_flags }
    let r := rtdm_context_unlock c
    { ctx := r.1, sched := if r.2 then s.sched + 1 else s.sched }

/-- Caller obligations under which the operations may be issued: lock
requires the context to still be in valid use (count at least 1, the
baseline open reference not yet dropped to destruction); unlock carries
the checked precondition CONTEXT_IS_LOCKED asserted by the source; the
close request is issued once, while the context is open and not yet
closing. -/
def lifePre (s : LifeState) : CtxOp → Bool
  | .lock => decide (1 ≤ s.ctx.close_lock_count)
  | .unlock => CONTEXT_IS_LOCKED s.ctx
  | .requestClose => !ctxClosing s.ctx && decide (1 ≤ s.ctx.close_lock_count)

/-- A trace is legal when every operation is issued in a state
satisfying its precondition. -/
def lifeLegal : LifeState → List CtxOp → Bool
  | _, [] => true
  | s, op :: rest => lifePre s op && lifeLegal (lifeStep s op) rest

/-- Run a trace of lifecycle operations. -/
def lifeRun : LifeState → List CtxOp → LifeState
  | s, [] => s
  | s, op :: rest => lifeRun (lifeStep s op) rest

/-- A freshly opened context: lock count 1 (the baseline open
reference), given flags word, no finalization scheduled. -/
def lifeInit (flags0 : Nat) : LifeState := ⟨⟨flags0, 1, by decide⟩, 0⟩

/-- The no-overflow side condition for one step: a lock must not be
issued while the 32-bit counter already holds INT32_MAX (the wrapping
increment would take it to INT32_MIN).  Unlocking operations issued
under their precondition (count at least 1) can never wrap. -/
def lifeNoWrapStep (s : LifeState) : CtxOp → Bool
  | .lock => decide (s.ctx.close_lock_count < INT32_MAX)
  | .unlock => true
  | .requestClose => true

/-- The no-overflow side condition along a whole trace. -/
def lifeNoWrap : LifeState → List CtxOp → Bool
  | _, [] => true
  | s, op :: rest => lifeNoWrapStep s op && lifeNoWrap (lifeStep s op) rest

/-- The lifecycle invariant: either nothing has been scheduled yet and
the count is still positive, or the finalization APC has been scheduled
exactly once, the count is zero and the closing flag is set. -/
def LifeInv (s : LifeState) : Prop :=
  (s.sched = 0 ∧ 1 ≤ s.ctx.close_lock_count) ∨
    (s.sched = 1 ∧ s.ctx.close_lock_count = 0 ∧ ctxClosing s.ctx = true)

/-! ### Driver version encoding (rtdm_driver.h, Driver Versioning) -/

/-- RTDM_DRIVER_VER(major, minor, patch):
(((major & 0xFF) << 16) | ((minor & 0xFF) << 8) | (patch & 0xFF)). -/
def RTDM_DRIVER_VER (major minor patch : Nat) : Nat :=
  (((major &&& 0xFF) <<< 16) ||| ((minor &&& 0xFF) <<< 8)) ||| (patch &&& 0xFF)

/-- RTDM_DRIVER_MAJOR_VER(ver): ((ver >> 16) & 0xFF). -/
def RTDM_DRIVER_MAJOR_VER (ver : Nat) : Nat := (ver >>> 16) &&& 0xFF

/-- RTDM_DRIVER_MINOR_VER(ver): ((ver >> 8) & 0xFF). -/
def RTDM_DRIVER_MINOR_VER (ver : Nat) : Nat := (ver >>> 8) &&& 0xFF

/-- RTDM_DRIVER_PATCH_VER(ver): (ver & 0xFF). -/
def RTDM_DRIVER_PATCH_VER (ver : Nat) : Nat := ver &&& 0xFF

/-! ### Dual-context dispatch -/

/-- The two execution domains a call may originate from. -/
inductive CallDomain
  | rt
  | nrt
deriving DecidableEq, Repr

/-- The opposite execution domain. -/
def CallDomain.other : CallDomain → CallDomain
  | .rt => .nrt
  | .nrt => .rt

/-- One dispatchable operation slot of struct rtdm_operations: an
optional real-time handler and an optional non-real-time handler.
`H` is the handler representation. -/
structure OpSlot (H : Type) where
  rtVariant : Option H
  nrtVariant : Option H

/-- The handler variant that must run in the given domain. -/
def OpSlot.variant {H : Type} (s : OpSlot H) : CallDomain → Option H
  | .rt => s.rtVariant
  | .nrt => s.nrtVariant

/-- Outcome of dispatching one operation: a handler invoked in a
definite execution domain, or failure with NotSupported (-ENOSYS as the
terminal outcome). -/
inductive Dispatch (H : Type)
  | invoked (h : H) (dom : CallDomain)
  | notSupported
deriving DecidableEq

/-- Modelled from the spec: the dual-context dispatcher of the RTDM
core; its body is not among the analyzed sources, only the operation
table it dispatches over is.  Steps 1 to 3 of the dispatch algorithm:
invoke the variant matching the caller domain if present; otherwise
marshal the call into the opposite domain and invoke the variant there;
otherwise fail with NotSupported. -/
def dispatchOp {H : Type} (s : OpSlot H) (caller : CallDomain) : Dispatch H :=
  match s.variant caller with
  | some h => .invoked h caller
  | none =>
    match s.variant caller.other with
    | some h => .invoked h caller.other
    | none => .notSupported

/-- The handler entry points of rtipc.c that populate its operation
table. -/
inductive RtipcHandler
  | rtipc_close
  | rtipc_ioctl
  | rtipc_read
  | rtipc_write
  | rtipc_recvmsg
  | rtipc_sendmsg
deriving DecidableEq, Repr

/-- rtipc device operation table, close slot: close_rt = close_nrt =
rtipc_close. -/
def rtipcCloseSlot : OpSlot RtipcHandler := ⟨some .rtipc_close, some .rtipc_close⟩

/-- rtipc device operation table, ioctl slot: both variants are
rtipc_ioctl. -/
def rtipcIoctlSlot : OpSlot RtipcHandler := ⟨some .rtipc_ioctl, some .rtipc_ioctl⟩

/-- rtipc device operation table, read slot: read_rt = rtipc_read,
read_nrt = NULL. -/
def rtipcReadSlot : OpSlot RtipcHandler := ⟨some .rtipc_read, none⟩

/-- rtipc device operation table, write slot: write_rt = rtipc_write,
write_nrt = NULL. -/
def rtipcWriteSlot : OpSlot RtipcHandler := ⟨some .rtipc_write, none⟩

/-- rtipc device operation table, recvmsg slot: recvmsg_rt =
rtipc_recvmsg, recvmsg_nrt = NULL. -/
def rtipcRecvmsgSlot : OpSlot RtipcHandler := ⟨some .rtipc_recvmsg, none⟩

/-- rtipc device operation table, sendmsg slot: sendmsg_rt =
rtipc_sendmsg, sendmsg_nrt = NULL. -/
def rtipcSendmsgSlot : OpSlot RtipcHandler := ⟨some .rtipc_sendmsg, none⟩

/-! ### Errno values (Linux uapi errno, not among the analyzed sources) -/

/-- Linux errno: protocol not supported. -/
def EPROTONOSUPPORT : Int := 93

/-- Linux errno: protocol not available. -/
def ENOPROTOOPT : Int := 92

/-- Linux errno: out of memory. -/
def ENOMEM : Int := 12

/-- Linux errno: invalid argument. -/
def EINVAL : Int := 22

/-! ### rtipc socket creation and close (ksrc/drivers/ipc/rtipc.c) -/

/-- Modelled from the spec: the protocol numbers of rtdm/rtipc.h (the
header is not among the analyzed sources).  IPCPROTO_IPC = 0 selects
the default protocol; XDDP and IDDP occupy slots 1 and 2 of the
protocol range; IPCPROTO_MAX bounds the range used by the rtipc
protocols[] table. -/
def IPCPROTO_IPC : Int := 0

/-- Protocol number of the XDDP protocol. -/
def IPCPROTO_XDDP : Int := 1

/-- Protocol number of the IDDP protocol (the default). -/
def IPCPROTO_IDDP : Int := 2

/-- Exclusive upper bound of valid rtipc protocol numbers. -/
def IPCPROTO_MAX : Int := 3

/-- One entry of the rtipc protocols[] table (struct rtipc_protocol of
ipc/internal.h, not among the analyzed sources): the byte size of the
per-socket protocol state, and the outcome of its proto_ops.socket
handler for the creation at hand. -/
structure RtipcProtocol where
  proto_statesz : Nat
  socketRet : Int
deriving Repr, DecidableEq

/-- The rtipc per-socket private data (struct rtipc_private): the bound
protocol and the pointer to the allocated protocol state buffer
(`none` models a NULL p->state). -/
structure RtipcPrivate where
  proto : Option RtipcProtocol
  state : Option Nat
deriving Repr, DecidableEq

/-- The protocol-number remapping performed inside rtipc_socket:
IPCPROTO_IPC selects the default protocol IDDP. -/
def rtipcEffectiveProto (protocol : Int) : Int :=
  if protocol = IPCPROTO_IPC then IPCPROTO_IDDP else protocol

/-- Embedding of rtipc_socket.  `protocols` is the (conditional
compilation dependent) protocols[] table, indexed like the C array;
`alloc` models xnmalloc, returning the block pointer or `none` on
allocation failure.  Out-of-range protocol numbers fail with
-EPROTONOSUPPORT; a protocol slot that was not compiled in fails with
-ENOPROTOOPT; allocation failure of the protocol state fails with
-ENOMEM leaving p->state NULL; otherwise the protocol's own socket
handler decides the outcome. -/
def rtipc_socket (protocols : Int → Option RtipcProtocol)
    (alloc : Nat → Option Nat) (p : RtipcPrivate) (protocol : Int) :
    RtipcPrivate × Int :=
  if protocol < 0 ∨ protocol ≥ IPCPROTO_MAX then (p, -EPROTONOSUPPORT)
  else
    match protocols (rtipcEffectiveProto protocol - 1) with
    | none => (p, -ENOPROTOOPT)
    | some proto =>
      let p1 : RtipcPrivate := { p with proto := some proto }
      match alloc proto.proto_statesz with
      | none => ({ p1 with state := none }, -ENOMEM)
      | some ptr => ({ p1 with state := some ptr }, proto.socketRet)

/-- State visible to rtipc_close across repeated invocations on one
open context: the number of xnfree(p->state) calls performed so far (a
second call is a double free of the same pointer, since p->state is
never cleared). -/
structure RtipcCloseState where
  stateFreeCount : Nat
deriving Repr, DecidableEq

/-- Embedding of rtipc_close.  `protoCloseRet` is the return value of
the protocol close handler p->proto->proto_ops.close for this
invocation (that handler lives outside the analyzed sources).  On a
nonzero return the error is propagated untouched; on success
xnfree(p->state) is performed and 0 is returned.  p->state is not
cleared afterwards. -/
def rtipc_close (protoCloseRet : Int) (s : RtipcCloseState) :
    RtipcCloseState × Int :=
  if protoCloseRet ≠ 0 then (s, protoCloseRet)
  else ({ stateFreeCount := s.stateFreeCount + 1 }, 0)

/-! ### Synchronization objects and their destruction -/

/-- Modelled from the spec: the nucleus wakeup-reason bits consumed by
the wait-side services (nucleus/thread.h, not among the analyzed
sources).  XNTIMEO marks a wakeup due to timeout, XNRMID a wakeup
because the awaited resource was removed.  The claims depend only on
the two being distinct nonzero bits. -/
def XNTIMEO : Nat := 0x10

/-- Wakeup reason bit: pending on a removed resource. -/
def XNRMID : Nat := 0x20

/-- A blocked waiter's wakeup outcome as observed by the wait-side
services (rtdm_event_wait, rtdm_sem_down, rtdm_mutex_lock; their bodies
are not among the analyzed sources).  Modelled from the spec: waiters
woken by destruction observe a Removed status distinct from the normal
success and timeout outcomes. -/
inductive WakeOutcome
  | success
  | timedOut
  | removed
deriving DecidableEq, Repr

/-- The base synchronization object (xnsynch): the priority-ordered
queue of currently blocked waiters, identified by task ids. -/
structure SynchBase where
  waiters : List Nat
deriving Repr, DecidableEq

/-- Modelled from the spec: the outcome a flushed waiter observes, as a
function of the reason word passed to xnsynch_flush.  A flush carrying
the XNRMID bit wakes the waiter with Removed (-EIDRM); a flush with
reason 0 releases the waiter normally. -/
def flushOutcome (reason : Nat) : WakeOutcome :=
  if reason &&& XNRMID ≠ 0 then .removed else .success

/-- Modelled from the spec: __rtdm_synch_flush (its body is not among
the analyzed sources) forcibly wakes every waiter currently blocked on
the object, tagging each with the outcome derived from the reason
word, and leaves the wait queue empty. -/
def synchFlush (s : SynchBase) (reason : Nat) :
    SynchBase × List (Nat × WakeOutcome) :=
  (⟨[]⟩, s.waiters.map fun w => (w, flushOutcome reason))

/-- rtdm_event_t: the synch base plus the sticky RTDM_EVENT_PENDING
status bit (XNSYNCH_SPARE1 of the status word); the select block is
irrelevant to the claims and omitted. -/
structure RtdmEvent where
  pending : Bool
  synch_base : SynchBase
deriving Repr, DecidableEq

/-- rtdm_event_pulse: __rtdm_synch_flush(&event->synch_base, 0).  The
pending bit is not touched. -/
def rtdm_event_pulse (e : RtdmEvent) : RtdmEvent × List (Nat × WakeOutcome) :=
  let r := synchFlush e.synch_base 0
  ({ e with synch_base := r.1 }, r.2)

/-- rtdm_event_destroy: __rtdm_synch_flush(&event->synch_base, XNRMID)
followed by xnselect_destroy of the select block (irrelevant here). -/
def rtdm_event_destroy (e : RtdmEvent) : RtdmEvent × List (Nat × WakeOutcome) :=
  let r := synchFlush e.synch_base XNRMID
  ({ e with synch_base := r.1 }, r.2)

/-- Outcome of rtdm_event_wait: immediate return (the sticky pending
bit was set and is cleared atomically), or the caller blocks on the
wait queue. -/
inductive EventWaitRes
  | immediate (e : RtdmEvent)
  | blocked (e : RtdmEvent)
deriving DecidableEq, Repr

/-- Whether a wait outcome is the blocking one. -/
def EventWaitRes.blocks : EventWaitRes → Bool
  | .immediate _ => false
  | .blocked _ => true

/-- Modelled from the spec: rtdm_event_wait (its body is not among the
analyzed sources) returns immediately and clears the pending bit
atomically when the bit is set; otherwise the calling task is enqueued
on the wait queue and blocks. -/
def rtdm_event_wait (task : Nat) (e : RtdmEvent) : EventWaitRes :=
  if e.pending then .immediate { e with pending := false }
  else .blocked { e with synch_base := ⟨e.synch_base.waiters ++ [task]⟩ }

/-- rtdm_sem_t: the counter value plus the synch base; the select block
is omitted. -/
structure RtdmSem where
  value : Nat
  synch_base : SynchBase
deriving Repr, DecidableEq

/-- rtdm_sem_destroy: __rtdm_synch_flush(&sem->synch_base, XNRMID)
followed by xnselect_destroy of the select block. -/
def rtdm_sem_destroy (s : RtdmSem) : RtdmSem × List (Nat × WakeOutcome) :=
  let r := synchFlush s.synch_base XNRMID
  ({ s with synch_base := r.1 }, r.2)

/-- rtdm_mutex_t: just the synch base. -/
structure RtdmMutex where
  synch_base : SynchBase
deriving Repr, DecidableEq

/-- rtdm_mutex_destroy: __rtdm_synch_flush(&mutex->synch_base,
XNRMID). -/
def rtdm_mutex_destroy (m : RtdmMutex) : RtdmMutex × List (Nat × WakeOutcome) :=
  let r := synchFlush m.synch_base XNRMID
  ({ m with synch_base := r.1 }, r.2)

/-! ### Device unregistration (registration core not among the sources) -/

/-- Modelled from the spec: rtdm_dev_unregister (declared in
rtdm_driver.h, body not among the analyzed sources) polls the device's
count of open contexts, sleeping the caller-supplied poll_delay between
polls, and returns only once the count has dropped to zero.
`refcount t` is the count observed at the t-th poll; the result is the
poll index at which unregistration returns, or `none` if the count
never reached zero within `fuel` polls (unregistration still blocked).
-/
def unregisterPoll (refcount : Nat → Nat) : Nat → Nat → Option Nat
  | 0, _ => none
  | fuel + 1, t => if refcount t = 0 then some t else unregisterPoll refcount fuel (t + 1)

/-- The poll delay __rtipc_exit passes to rtdm_dev_unregister. -/
def rtipcUnregisterPollDelay : Nat := 1000

/-! ### Timer modes and absolute sleep (rtdm_driver.h) -/

/-- enum rtdm_timer_mode, with the nucleus values XN_RELATIVE,
XN_ABSOLUTE, XN_REALTIME. -/
inductive RtdmTimerMode
  | RTDM_TIMERMODE_RELATIVE
  | RTDM_TIMERMODE_ABSOLUTE
  | RTDM_TIMERMODE_REALTIME
deriving DecidableEq, Repr

/-- Embedding of rtdm_task_sleep_abs: any mode other than
RTDM_TIMERMODE_ABSOLUTE and RTDM_TIMERMODE_REALTIME yields -EINVAL
without any call into the sleep service; otherwise the call is
delegated to __rtdm_task_sleep (extern, body not among the analyzed
sources) with the wakeup date and mode unchanged — the `.ok` payload
records exactly the arguments handed over. -/
def rtdm_task_sleep_abs (wakeup_date : Nat) (mode : RtdmTimerMode) :
    Except Int (Nat × RtdmTimerMode) :=
  if mode ≠ .RTDM_TIMERMODE_ABSOLUTE ∧ mode ≠ .RTDM_TIMERMODE_REALTIME then
    .error (-EINVAL)
  else
    .ok (wakeup_date, mode)

/-! ## Theorems -/

/-- C1 counterexample: on a context holding exactly the baseline open
reference with the closing flag clear, rtdm_context_unlock decrements
the count to zero and still schedules the deferred-finalization APC,
whereas the claim states that with the closing flag clear the call is a
no-op beyond the decrement. -/
theorem rtdm_context_unlock_schedules_with_closing_clear :
    ctxClosing { context_flags := 0, close_lock_count := 1 } = false ∧
      (rtdm_context_unlock { context_flags := 0, close_lock_count := 1 }).2 = true ∧
      (rtdm_context_unlock
          { context_flags := 0, close_lock_count := 1 }).1.close_lock_count = 0 := by
  decide

/-- C1 (amended): for every device context satisfying the checked
validity precondition CONTEXT_IS_LOCKED, rtdm_context_unlock decrements
the lock count, and schedules deferred finalization if and only if the
resulting count is zero and the closing flag is set (under the
precondition, a zero result only arises with the closing flag set). -/
theorem rtdm_context_unlock_schedule_iff (c : RtdmDevContext)
    (h : CONTEXT_IS_LOCKED c = true) :
    (rtdm_context_unlock c).1.close_lock_count = c.close_lock_count - 1 ∧
      ((rtdm_context_unlock c).2 = true ↔
        ((rtdm_context_unlock c).1.close_lock_count = 0 ∧ ctxClosing c = true)) := by
  have hr := c.close_lock_count_range
  simp only [INT32_MIN, INT32_MAX] at hr
  simp only [CONTEXT_IS_LOCKED, Bool.or_eq_true, Bool.and_eq_true,
    decide_eq_true_eq] at h
  have hpos : 1 ≤ c.close_lock_count := by
    rcases h with h1 | ⟨_, h2⟩ <;> omega
  have hw : int32wrap (c.close_lock_count - 1) = c.close_lock_count - 1 := by
    simp only [int32wrap]
    omega
  have hcnt : (rtdm_context_unlock c).1.close_lock_count =
      c.close_lock_count - 1 := hw
  refine ⟨hcnt, ?_, ?_⟩
  · intro hz
    have hz2 : c.close_lock_count - 1 = 0 := by
      have hz3 : int32wrap (c.close_lock_count - 1) = 0 := by
        simpa [rtdm_context_unlock] using hz
      rw [hw] at hz3
      exact hz3
    refine ⟨by rw [hcnt]; exact hz2, ?_⟩
    rcases h with h1 | ⟨h2, _⟩
    · omega
    · exact h2
  · rintro ⟨h0, _⟩
    have h0a : c.close_lock_count - 1 = 0 := by
      rw [hcnt] at h0
      exact h0
    have hz0 : int32wrap 0 = 0 := by decide
    simp [rtdm_context_unlock, hw, h0a, hz0]

/-- Witness for the amended C1 theorem at a concrete context: count 1,
closing flag set. -/
theorem rtdm_context_unlock_schedule_iff_witness :
    (rtdm_context_unlock
        { context_flags := 2, close_lock_count := 1 }).1.close_lock_count =
        ({ context_flags := 2, close_lock_count := 1 } :
          RtdmDevContext).close_lock_count - 1 ∧
      (rtdm_context_unlock { context_flags := 2, close_lock_count := 1 }).2 = true :=
  ⟨(rtdm_context_unlock_schedule_iff
      { context_flags := 2, close_lock_count := 1 } (by decide)).1,
   ((rtdm_context_unlock_schedule_iff
      { context_flags := 2, close_lock_count := 1 } (by decide)).2).2
     ⟨by decide, by decide⟩⟩

/-- C3: the dual-context dispatcher invokes the variant matching the
caller domain when present; otherwise it marshals into the opposite
domain and invokes the variant registered there; with no variant at all
the call fails with NotSupported; an invoked handler is always the
variant of the domain it executes in (never a wrong-domain
invocation); in particular, the rtipc operations that register only the
_rt variant (read, write, recvmsg, sendmsg) are executed by marshalling
into the real-time domain when called from non-real-time context. -/
theorem dual_context_dispatch :
    (∀ (H : Type) (s : OpSlot H) (c : CallDomain) (h : H),
        s.variant c = some h → dispatchOp s c = .invoked h c) ∧
    (∀ (H : Type) (s : OpSlot H) (c : CallDomain) (h : H),
        s.variant c = none → s.variant c.other = some h →
        dispatchOp s c = .invoked h c.other) ∧
    (∀ (H : Type) (s : OpSlot H) (c : CallDomain),
        s.variant c = none → s.variant c.other = none →
        dispatchOp s c = .notSupported) ∧
    (∀ (H : Type) (s : OpSlot H) (c d : CallDomain) (h : H),
        dispatchOp s c = .invoked h d → s.variant d = some h) ∧
    (dispatchOp rtipcReadSlot .nrt = .invoked .rtipc_read .rt ∧
     dispatchOp rtipcWriteSlot .nrt = .invoked .rtipc_write .rt ∧
     dispatchOp rtipcRecvmsgSlot .nrt = .invoked .rtipc_recvmsg .rt ∧
     dispatchOp rtipcSendmsgSlot .nrt = .invoked .rtipc_sendmsg .rt) := by
  refine ⟨?_, ?_, ?_, ?_, by decide⟩
  · intro H s c h hv
    unfold dispatchOp
    rw [hv]
  · intro H s c h hn hv
    unfold dispatchOp
    rw [hn, hv]
  · intro H s c hn ho
    unfold dispatchOp
    rw [hn, ho]
  · intro H s c d h hd
    obtain ⟨rtv, nrtv⟩ := s
    cases rtv <;> cases nrtv <;> cases c <;> cases d <;>
      simp_all [dispatchOp, OpSlot.variant, CallDomain.other]

/-- Witness for C3 at the rtipc read slot called from real-time
context: the matching _rt variant is invoked in place. -/
theorem dual_context_dispatch_witness :
    dispatchOp rtipcReadSlot CallDomain.rt =
      .invoked RtipcHandler.rtipc_read CallDomain.rt :=
  dual_context_dispatch.1 RtipcHandler rtipcReadSlot CallDomain.rt
    RtipcHandler.rtipc_read rfl

/-- C4: two successive invocations of rtipc_close on the same open
context, the protocol close handler succeeding both times, both return
0 and hand p->state to xnfree twice — the double release the
close-handler contract of rtdm_driver.h requires the driver to
prevent. -/
theorem rtipc_close_double_free :
    (rtipc_close 0 ⟨0⟩).2 = 0 ∧
      (rtipc_close 0 (rtipc_close 0 ⟨0⟩).1).2 = 0 ∧
      (rtipc_close 0 (rtipc_close 0 ⟨0⟩).1).1.stateFreeCount = 2 := by
  decide

/-- C5: destroying an event, a semaphore or a mutex wakes every blocked
waiter with the Removed outcome, which is distinct from both the
timeout outcome and a normal success. -/
theorem synch_destroy_wakes_removed :
    (∀ e : RtdmEvent,
        (rtdm_event_destroy e).2 =
          e.synch_base.waiters.map fun w => (w, WakeOutcome.removed)) ∧
    (∀ s : RtdmSem,
        (rtdm_sem_destroy s).2 =
          s.synch_base.waiters.map fun w => (w, WakeOutcome.removed)) ∧
    (∀ m : RtdmMutex,
        (rtdm_mutex_destroy m).2 =
          m.synch_base.waiters.map fun w => (w, WakeOutcome.removed)) ∧
    WakeOutcome.removed ≠ WakeOutcome.timedOut ∧
    WakeOutcome.removed ≠ WakeOutcome.success := by
  have hfo : flushOutcome XNRMID = .removed := by decide
  refine ⟨fun e => ?_, fun s => ?_, fun m => ?_, by decide, by decide⟩ <;>
    simp [rtdm_event_destroy, rtdm_sem_destroy, rtdm_mutex_destroy, synchFlush, hfo]

/-- C6: rtdm_event_pulse wakes every blocked waiter with a normal
success, empties the wait queue, and leaves the sticky pending bit
untouched; hence a wait issued after a pulse that left the bit clear
blocks instead of observing a stale signal. -/
theorem event_pulse_not_sticky :
    (∀ e : RtdmEvent,
        (rtdm_event_pulse e).1.pending = e.pending ∧
        (rtdm_event_pulse e).1.synch_base.waiters = [] ∧
        (rtdm_event_pulse e).2 =
          e.synch_base.waiters.map fun w => (w, WakeOutcome.success)) ∧
    (∀ (e : RtdmEvent) (t : Nat), e.pending = false →
        (rtdm_event_wait t (rtdm_event_pulse e).1).blocks = true) := by
  constructor
  · intro e
    refine ⟨rfl, rfl, ?_⟩
    simp [rtdm_event_pulse, synchFlush, flushOutcome, XNRMID]
  · intro e t hp
    simp [rtdm_event_wait, rtdm_event_pulse, synchFlush, hp, EventWaitRes.blocks]

/-- Witness for C6: after a pulse on a clear event with two waiters, a
fresh wait blocks. -/
theorem event_pulse_not_sticky_witness :
    (rtdm_event_wait 7 (rtdm_event_pulse ⟨false, ⟨[1, 2]⟩⟩).1).blocks = true :=
  event_pulse_not_sticky.2 ⟨false, ⟨[1, 2]⟩⟩ 7 rfl

/-- C7: rtipc_socket fails with -EPROTONOSUPPORT on protocol numbers
outside the supported range, with -ENOPROTOOPT on an in-range protocol
whose table slot was not compiled in, and with -ENOMEM when allocating
the protocol state fails — in the latter case p->state stays NULL, so
no protocol state is leaked. -/
theorem rtipc_socket_error_paths :
    (∀ (tbl : Int → Option RtipcProtocol) (alloc : Nat → Option Nat)
        (p : RtipcPrivate) (protocol : Int),
        (protocol < 0 ∨ protocol ≥ IPCPROTO_MAX) →
        rtipc_socket tbl alloc p protocol = (p, -EPROTONOSUPPORT)) ∧
    (∀ (tbl : Int → Option RtipcProtocol) (alloc : Nat → Option Nat)
        (p : RtipcPrivate) (protocol : Int),
        0 ≤ protocol → protocol < IPCPROTO_MAX →
        tbl (rtipcEffectiveProto protocol - 1) = none →
        rtipc_socket tbl alloc p protocol = (p, -ENOPROTOOPT)) ∧
    (∀ (tbl : Int → Option RtipcProtocol) (alloc : Nat → Option Nat)
        (p : RtipcPrivate) (protocol : Int) (proto : RtipcProtocol),
        0 ≤ protocol → protocol < IPCPROTO_MAX →
        tbl (rtipcEffectiveProto protocol - 1) = some proto →
        alloc proto.proto_statesz = none →
        (rtipc_socket tbl alloc p protocol).2 = -ENOMEM ∧
          (rtipc_socket tbl alloc p protocol).1.state = none) := by
  refine ⟨?_, ?_, ?_⟩
  · intro tbl alloc p protocol h
    unfold rtipc_socket
    rw [if_pos h]
  · intro tbl alloc p protocol h0 hmax htbl
    unfold rtipc_socket
    rw [if_neg (by push_neg; exact ⟨h0, hmax⟩), htbl]
  · intro tbl alloc p protocol proto h0 hmax htbl halloc
    unfold rtipc_socket
    rw [if_neg (by push_neg; exact ⟨h0, hmax⟩), htbl]
    simp [halloc]

/-- Witness for C7 at a concrete out-of-range protocol number. -/
theorem rtipc_socket_error_paths_witness :
    rtipc_socket (fun _ => none) (fun _ => none) ⟨none, none⟩ (-5) =
      (⟨none, none⟩, -EPROTONOSUPPORT) :=
  rtipc_socket_error_paths.1 (fun _ => none) (fun _ => none) ⟨none, none⟩ (-5)
    (Or.inl (by decide))

/-- C10: rtdm_task_sleep_abs rejects every mode other than
RTDM_TIMERMODE_ABSOLUTE and RTDM_TIMERMODE_REALTIME (in particular
RTDM_TIMERMODE_RELATIVE) with -EINVAL without calling the sleep
service, and otherwise delegates the wakeup date and the mode unchanged
to __rtdm_task_sleep. -/
theorem rtdm_task_sleep_abs_mode_check :
    (∀ d : Nat, rtdm_task_sleep_abs d .RTDM_TIMERMODE_RELATIVE =
        .error (-EINVAL)) ∧
    (∀ (d : Nat) (mode : RtdmTimerMode), mode ≠ .RTDM_TIMERMODE_ABSOLUTE →
        mode ≠ .RTDM_TIMERMODE_REALTIME →
        rtdm_task_sleep_abs d mode = .error (-EINVAL)) ∧
    (∀ d : Nat, rtdm_task_sleep_abs d .RTDM_TIMERMODE_ABSOLUTE =
        .ok (d, .RTDM_TIMERMODE_ABSOLUTE)) ∧
    (∀ d : Nat, rtdm_task_sleep_abs d .RTDM_TIMERMODE_REALTIME =
        .ok (d, .RTDM_TIMERMODE_REALTIME)) := by
  refine ⟨fun d => rfl, ?_, fun d => rfl, fun d => rfl⟩
  intro d mode h1 h2
  unfold rtdm_task_sleep_abs
  rw [if_pos ⟨h1, h2⟩]

/-- Witness for C10 at the relative mode. -/
theorem rtdm_task_sleep_abs_mode_check_witness :
    rtdm_task_sleep_abs 5 .RTDM_TIMERMODE_RELATIVE = .error (-EINVAL) :=
  rtdm_task_sleep_abs_mode_check.2.1 5 .RTDM_TIMERMODE_RELATIVE
    (by decide) (by decide)

/-! ### Lifecycle trace lemmas (towards C2) -/

/-- Wrapping is the identity on values already in the signed 32-bit
range. -/
theorem int32wrap_eq_self (n : Int) (h1 : INT32_MIN ≤ n) (h2 : n ≤ INT32_MAX) :
    int32wrap n = n := by
  simp only [int32wrap, INT32_MIN, INT32_MAX] at h1 h2 ⊢
  omega

/-- Setting the RTDM_CLOSING bit makes the closing test true. -/
theorem ctxClosing_set_bit (flags : Nat) :
    Nat.testBit (set_bit RTDM_CLOSING flags) RTDM_CLOSING = true := by
  have h2 : Nat.testBit (1 <<< RTDM_CLOSING) RTDM_CLOSING = true := by decide
  simp [set_bit, Nat.testBit_or, h2]

/-- The lock step increments the counter with the 32-bit wrap. -/
theorem lifeStep_lock_count (s : LifeState) :
    (lifeStep s .lock).ctx.close_lock_count =
      int32wrap (s.ctx.close_lock_count + 1) := rfl

/-- The lock step leaves the flags untouched. -/
theorem lifeStep_lock_flags (s : LifeState) :
    (lifeStep s .lock).ctx.context_flags = s.ctx.context_flags := rfl

/-- The lock step schedules nothing. -/
theorem lifeStep_lock_sched (s : LifeState) :
    (lifeStep s .lock).sched = s.sched := rfl

/-- The unlock step decrements the counter with the 32-bit wrap. -/
theorem lifeStep_unlock_count (s : LifeState) :
    (lifeStep s .unlock).ctx.close_lock_count =
      int32wrap (s.ctx.close_lock_count - 1) := rfl

/-- The unlock step leaves the flags untouched. -/
theorem lifeStep_unlock_flags (s : LifeState) :
    (lifeStep s .unlock).ctx.context_flags = s.ctx.context_flags := rfl

/-- The unlock step schedules the finalization APC exactly when the
decremented (wrapped) counter is zero. -/
theorem lifeStep_unlock_sched (s : LifeState) :
    (lifeStep s .unlock).sched =
      if int32wrap (s.ctx.close_lock_count - 1) = 0 then s.sched + 1
      else s.sched := by
  simp only [lifeStep, rtdm_context_unlock]
  by_cases hz : int32wrap (s.ctx.close_lock_count - 1) = 0 <;> simp [hz]

/-- The close request decrements the counter with the 32-bit wrap (its
internal unlock). -/
theorem lifeStep_close_count (s : LifeState) :
    (lifeStep s .requestClose).ctx.close_lock_count =
      int32wrap (s.ctx.close_lock_count - 1) := rfl

/-- The close request sets the RTDM_CLOSING bit. -/
theorem lifeStep_close_flags (s : LifeState) :
    (lifeStep s .requestClose).ctx.context_flags =
      set_bit RTDM_CLOSING s.ctx.context_flags := rfl

/-- The close request schedules the finalization APC exactly when the
decremented (wrapped) counter is zero. -/
theorem lifeStep_close_sched (s : LifeState) :
    (lifeStep s .requestClose).sched =
      if int32wrap (s.ctx.close_lock_count - 1) = 0 then s.sched + 1
      else s.sched := by
  simp only [lifeStep, rtdm_context_unlock]
  by_cases hz : int32wrap (s.ctx.close_lock_count - 1) = 0 <;> simp [hz]

/-- The lifecycle invariant is preserved by every legally issued
operation that does not overflow the 32-bit counter. -/
theorem lifeInv_step (s : LifeState) (op : CtxOp)
    (hInv : LifeInv s) (hPre : lifePre s op = true)
    (hNW : lifeNoWrapStep s op = true) :
    LifeInv (lifeStep s op) := by
  have hr := s.ctx.close_lock_count_range
  simp only [INT32_MIN, INT32_MAX] at hr
  cases op with
  | lock =>
    simp only [lifePre, decide_eq_true_eq] at hPre
    simp only [lifeNoWrapStep, INT32_MAX, decide_eq_true_eq] at hNW
    have hw : int32wrap (s.ctx.close_lock_count + 1) =
        s.ctx.close_lock_count + 1 := by
      simp only [int32wrap]
      omega
    rcases hInv with ⟨hs, hc⟩ | ⟨_, hc, _⟩
    · refine Or.inl ⟨?_, ?_⟩
      · rw [lifeStep_lock_sched]; exact hs
      · rw [lifeStep_lock_count, hw]; omega
    · omega
  | unlock =>
    simp only [lifePre, CONTEXT_IS_LOCKED, ctxClosing, Bool.or_eq_true,
      Bool.and_eq_true, decide_eq_true_eq] at hPre
    have hpos : 1 ≤ s.ctx.close_lock_count := by
      rcases hPre with h1 | ⟨_, h2⟩ <;> omega
    have hw : int32wrap (s.ctx.close_lock_count - 1) =
        s.ctx.close_lock_count - 1 := by
      simp only [int32wrap]
      omega
    rcases hInv with ⟨hs, hc⟩ | ⟨_, hc, _⟩
    · by_cases hz : s.ctx.close_lock_count - 1 = 0
      · have hcl : Nat.testBit s.ctx.context_flags RTDM_CLOSING = true := by
          rcases hPre with h1 | ⟨h2, _⟩
          · omega
          · exact h2
        refine Or.inr ⟨?_, ?_, ?_⟩
        · rw [lifeStep_unlock_sched, if_pos (by rw [hw]; exact hz), hs]
        · rw [lifeStep_unlock_count, hw]; exact hz
        · show ctxClosing (lifeStep s .unlock).ctx = true
          rw [ctxClosing, lifeStep_unlock_flags]
          exact hcl
      · refine Or.inl ⟨?_, ?_⟩
        · rw [lifeStep_unlock_sched, if_neg (by rw [hw]; exact hz)]; exact hs
        · rw [lifeStep_unlock_count, hw]
          rcases hPre with h1 | ⟨_, h3⟩ <;> omega
    · rcases hPre with h1 | ⟨_, h3⟩ <;> omega
  | requestClose =>
    simp only [lifePre, ctxClosing, Bool.and_eq_true, Bool.not_eq_true',
      decide_eq_true_eq] at hPre
    obtain ⟨hncl, hcount⟩ := hPre
    have hw : int32wrap (s.ctx.close_lock_count - 1) =
        s.ctx.close_lock_count - 1 := by
      simp only [int32wrap]
      omega
    rcases hInv with ⟨hs, hc⟩ | ⟨_, hc, hcl⟩
    · by_cases hz : s.ctx.close_lock_count - 1 = 0
      · refine Or.inr ⟨?_, ?_, ?_⟩
        · rw [lifeStep_close_sched, if_pos (by rw [hw]; exact hz), hs]
        · rw [lifeStep_close_count, hw]; exact hz
        · show ctxClosing (lifeStep s .requestClose).ctx = true
          rw [ctxClosing, lifeStep_close_flags]
          exact ctxClosing_set_bit s.ctx.context_flags
      · refine Or.inl ⟨?_, ?_⟩
        · rw [lifeStep_close_sched, if_neg (by rw [hw]; exact hz)]; exact hs
        · rw [lifeStep_close_count, hw]; omega
    · rw [ctxClosing] at hcl
      rw [hcl] at hncl
      cases hncl

/-- The lifecycle invariant holds at the end of every legal,
non-overflowing trace. -/
theorem lifeInv_run (ops : List CtxOp) (s : LifeState)
    (hInv : LifeInv s) (hLegal : lifeLegal s ops = true)
    (hNW : lifeNoWrap s ops = true) :
    LifeInv (lifeRun s ops) := by
  induction ops generalizing s with
  | nil => simpa [lifeRun] using hInv
  | cons op rest ih =>
    simp only [lifeLegal, Bool.and_eq_true] at hLegal
    simp only [lifeNoWrap, Bool.and_eq_true] at hNW
    exact ih (lifeStep s op) (lifeInv_step s op hInv hLegal.1 hNW.1)
      hLegal.2 hNW.2

/-- A legally issued operation changes the scheduled count exactly when
it is an unlocking operation that takes the counter from 1 to 0 with
the closing flag in effect. -/
theorem lifeStep_sched_change (s : LifeState) (op : CtxOp)
    (hPre : lifePre s op = true) :
    (lifeStep s op).sched ≠ s.sched ↔
      (op ≠ .lock ∧ s.ctx.close_lock_count = 1 ∧
        (op = .requestClose ∨ ctxClosing s.ctx = true)) := by
  have hr := s.ctx.close_lock_count_range
  simp only [INT32_MIN, INT32_MAX] at hr
  cases op with
  | lock => simp [lifeStep_lock_sched]
  | unlock =>
    simp only [lifePre, CONTEXT_IS_LOCKED, Bool.or_eq_true, Bool.and_eq_true,
      decide_eq_true_eq] at hPre
    have hpos : 1 ≤ s.ctx.close_lock_count := by
      rcases hPre with h1 | ⟨_, h2⟩ <;> omega
    have hw : int32wrap (s.ctx.close_lock_count - 1) =
        s.ctx.close_lock_count - 1 := by
      simp only [int32wrap]
      omega
    rw [lifeStep_unlock_sched]
    by_cases hz : s.ctx.close_lock_count - 1 = 0
    · rw [if_pos (by rw [hw]; exact hz)]
      have hcl : ctxClosing s.ctx = true := by
        rcases hPre with h1 | ⟨h2, _⟩
        · omega
        · exact h2
      constructor
      · intro _
        exact ⟨by decide, by omega, Or.inr hcl⟩
      · intro _
        omega
    · rw [if_neg (by rw [hw]; exact hz)]
      constructor
      · intro hne
        exact absurd rfl hne
      · rintro ⟨_, hcount, _⟩
        omega
  | requestClose =>
    simp only [lifePre, ctxClosing, Bool.and_eq_true, Bool.not_eq_true',
      decide_eq_true_eq] at hPre
    obtain ⟨hncl, hcount1⟩ := hPre
    have hw : int32wrap (s.ctx.close_lock_count - 1) =
        s.ctx.close_lock_count - 1 := by
      simp only [int32wrap]
      omega
    rw [lifeStep_close_sched]
    by_cases hz : s.ctx.close_lock_count - 1 = 0
    · rw [if_pos (by rw [hw]; exact hz)]
      constructor
      · intro _
        exact ⟨by decide, by omega, Or.inl rfl⟩
      · intro _
        omega
    · rw [if_neg (by rw [hw]; exact hz)]
      constructor
      · intro hne
        exact absurd rfl hne
      · rintro ⟨_, hcount, _⟩
        omega

/-- Unfolding equation of lifeLegal on a nonempty trace. -/
theorem lifeLegal_cons (s : LifeState) (op : CtxOp) (rest : List CtxOp) :
    lifeLegal s (op :: rest) =
      (lifePre s op && lifeLegal (lifeStep s op) rest) := rfl

/-- Unfolding equation of lifeRun on a nonempty trace. -/
theorem lifeRun_cons (s : LifeState) (op : CtxOp) (rest : List CtxOp) :
    lifeRun s (op :: rest) = lifeRun (lifeStep s op) rest := rfl

/-- Running k locks from a state whose counter, plus k, stays within
one past INT32_MAX is legal and leaves the wrapped sum as the counter
(the last increment may wrap to INT32_MIN). -/
theorem lifeRun_replicate_lock (k : Nat) (s : LifeState)
    (h1 : 1 ≤ s.ctx.close_lock_count)
    (h2 : s.ctx.close_lock_count + (k : Int) ≤ INT32_MAX + 1) :
    lifeLegal s (List.replicate k CtxOp.lock) = true ∧
      (lifeRun s (List.replicate k CtxOp.lock)).ctx.close_lock_count =
        int32wrap (s.ctx.close_lock_count + (k : Int)) := by
  induction k generalizing s with
  | zero =>
    refine ⟨rfl, ?_⟩
    have hr := s.ctx.close_lock_count_range
    simp only [INT32_MIN, INT32_MAX] at hr
    show s.ctx.close_lock_count =
      int32wrap (s.ctx.close_lock_count + ((0 : Nat) : Int))
    simp only [int32wrap]
    omega
  | succ n ih =>
    have hr := s.ctx.close_lock_count_range
    simp only [INT32_MIN, INT32_MAX] at hr
    have hpre : lifePre s CtxOp.lock = true := by
      simp only [lifePre, decide_eq_true_eq]
      exact h1
    rw [List.replicate_succ]
    cases n with
    | zero =>
      refine ⟨?_, ?_⟩
      · simp only [lifeLegal, hpre, Bool.true_and]
      · show (lifeStep s CtxOp.lock).ctx.close_lock_count = _
        rw [lifeStep_lock_count]
        norm_num
    | succ m =>
      have h2a : s.ctx.close_lock_count + 1 ≤ 2147483647 := by
        simp only [INT32_MAX] at h2
        push_cast at h2
        omega
      have hstep : (lifeStep s CtxOp.lock).ctx.close_lock_count =
          s.ctx.close_lock_count + 1 := by
        rw [lifeStep_lock_count]
        simp only [int32wrap]
        omega
      obtain ⟨hl, hrn⟩ := ih (lifeStep s CtxOp.lock)
        (by rw [hstep]; omega)
        (by
          rw [hstep]
          simp only [INT32_MAX] at h2 ⊢
          push_cast at h2 ⊢
          omega)
      refine ⟨?_, ?_⟩
      · simp only [lifeLegal, hpre, Bool.true_and]
        exact hl
      · show (lifeRun (lifeStep s CtxOp.lock)
            (List.replicate (m + 1) CtxOp.lock)).ctx.close_lock_count = _
        rw [hrn, hstep]
        congr 1
        push_cast
        ring

/-- C2 counterexample: a precondition-respecting trace containing one
close request on which the claim fails on the real 32-bit counter — one
lock, the close request, then 2^31 - 1 further locks.  Every step is
legal (the count stays at least 1 at each lock), yet the 2^31-th
increment wraps the atomic_t to INT32_MIN, driving the lock count
negative. -/
theorem context_refcount_wrap_negative :
    lifeLegal (lifeInit 0)
        (CtxOp.lock :: CtxOp.requestClose ::
          List.replicate (2 ^ 31 - 1) CtxOp.lock) = true ∧
      (lifeRun (lifeInit 0)
          (CtxOp.lock :: CtxOp.requestClose ::
            List.replicate (2 ^ 31 - 1) CtxOp.lock)).ctx.close_lock_count
        < 0 := by
  have hc2 : (lifeStep (lifeStep (lifeInit 0) CtxOp.lock)
      CtxOp.requestClose).ctx.close_lock_count = 1 := by decide
  obtain ⟨hleg, hrun⟩ := lifeRun_replicate_lock (2 ^ 31 - 1)
    (lifeStep (lifeStep (lifeInit 0) CtxOp.lock) CtxOp.requestClose)
    (by norm_num [hc2])
    (by rw [hc2]; norm_num [INT32_MAX])
  constructor
  · have hp1 : lifePre (lifeInit 0) CtxOp.lock = true := by decide
    have hp2 : lifePre (lifeStep (lifeInit 0) CtxOp.lock)
        CtxOp.requestClose = true := by decide
    rw [lifeLegal_cons, lifeLegal_cons, hp1, hp2, hleg]
    rfl
  · rw [lifeRun_cons, lifeRun_cons, hrun, hc2]
    decide

/-- C2 (amended): along every legal trace of lock/unlock operations
interleaved with the (at most one) close request on a freshly opened
context, during which no lock is issued while the 32-bit counter
already holds INT32_MAX (so the counter never overflows), the lock
count never goes negative, the finalization APC is scheduled at most
once, it has been scheduled exactly once precisely when the count has
been drained to zero, and any further legally issued operation changes
the scheduled count exactly at a transition of the counter from 1 to 0
with the closing flag in effect.  Without the no-overflow condition the
never-negative part fails: 2^31 - 1 locks wrap the counter to
INT32_MIN. -/
theorem context_refcount_protocol (ops : List CtxOp) (flags0 : Nat)
    (hLegal : lifeLegal (lifeInit flags0) ops = true)
    (hNW : lifeNoWrap (lifeInit flags0) ops = true) :
    0 ≤ (lifeRun (lifeInit flags0) ops).ctx.close_lock_count ∧
    (lifeRun (lifeInit flags0) ops).sched ≤ 1 ∧
    ((lifeRun (lifeInit flags0) ops).sched = 1 ↔
      (lifeRun (lifeInit flags0) ops).ctx.close_lock_count = 0) ∧
    (∀ op : CtxOp, lifePre (lifeRun (lifeInit flags0) ops) op = true →
      ((lifeStep (lifeRun (lifeInit flags0) ops) op).sched ≠
          (lifeRun (lifeInit flags0) ops).sched ↔
        (op ≠ .lock ∧
          (lifeRun (lifeInit flags0) ops).ctx.close_lock_count = 1 ∧
          (op = .requestClose ∨
            ctxClosing (lifeRun (lifeInit flags0) ops).ctx = true)))) := by
  have hInv0 : LifeInv (lifeInit flags0) := Or.inl ⟨rfl, le_refl 1⟩
  have hInv := lifeInv_run ops (lifeInit flags0) hInv0 hLegal hNW
  refine ⟨?_, ?_, ?_, fun op hPre => lifeStep_sched_change _ op hPre⟩ <;>
    rcases hInv with ⟨hs, hc⟩ | ⟨hs, hc, _⟩ <;> omega

/-- Witness for C2 on the trace lock, close request, unlock. -/
theorem context_refcount_protocol_witness :
    (lifeRun (lifeInit 0) [CtxOp.lock, CtxOp.requestClose, CtxOp.unlock]).sched ≤ 1 ∧
      ((lifeRun (lifeInit 0) [CtxOp.lock, CtxOp.requestClose, CtxOp.unlock]).sched = 1 ↔
        (lifeRun (lifeInit 0)
            [CtxOp.lock, CtxOp.requestClose, CtxOp.unlock]).ctx.close_lock_count = 0) :=
  ⟨(context_refcount_protocol [CtxOp.lock, CtxOp.requestClose, CtxOp.unlock] 0
      (by decide) (by decide)).2.1,
   (context_refcount_protocol [CtxOp.lock, CtxOp.requestClose, CtxOp.unlock] 0
      (by decide) (by decide)).2.2.1⟩

/-! ### Unregistration (C8) -/

/-- C8: the unregistration poll loop never returns before the count of
open contexts has reached zero — if it returns at poll u, the count is
zero there and was nonzero at every earlier poll — and it does return
once the count reaches zero within the polling budget. -/
theorem dev_unregister_waits_for_drain :
    (∀ (refcount : Nat → Nat) (fuel t u : Nat),
        unregisterPoll refcount fuel t = some u →
        refcount u = 0 ∧ t ≤ u ∧ ∀ m, t ≤ m → m < u → refcount m ≠ 0) ∧
    (∀ (refcount : Nat → Nat) (fuel t : Nat),
        (∃ k, k < fuel ∧ refcount (t + k) = 0) →
        ∃ u, unregisterPoll refcount fuel t = some u) := by
  constructor
  · intro refcount fuel
    induction fuel with
    | zero =>
      intro t u h
      simp [unregisterPoll] at h
    | succ n ih =>
      intro t u h
      by_cases hz : refcount t = 0
      · simp [unregisterPoll, hz] at h
        subst h
        exact ⟨hz, le_refl t, fun m h1 h2 => by omega⟩
      · simp [unregisterPoll, hz] at h
        obtain ⟨h0, h1, h2⟩ := ih (t + 1) u h
        refine ⟨h0, by omega, fun m hm1 hm2 => ?_⟩
        rcases Nat.eq_or_lt_of_le hm1 with heq | hlt
        · rw [← heq]
          exact hz
        · exact h2 m (by omega) hm2
  · intro refcount fuel
    induction fuel with
    | zero =>
      rintro t ⟨k, hk, _⟩
      omega
    | succ n ih =>
      rintro t ⟨k, hk, hkz⟩
      by_cases h0 : refcount t = 0
      · exact ⟨t, by simp [unregisterPoll, h0]⟩
      · have hnext : ∃ k2, k2 < n ∧ refcount (t + 1 + k2) = 0 := by
          cases k with
          | zero =>
            rw [Nat.add_zero] at hkz
            exact absurd hkz h0
          | succ k2 =>
            refine ⟨k2, by omega, ?_⟩
            rw [show t + 1 + k2 = t + (k2 + 1) by omega]
            exact hkz
        obtain ⟨u, hu⟩ := ih (t + 1) hnext
        refine ⟨u, ?_⟩
        simp [unregisterPoll, h0]
        exact hu

/-- Witness for C8: a device whose open-context count drains 2, 1, 0
releases the unregistration caller at the third poll, where the count
is zero and was nonzero before. -/
theorem dev_unregister_waits_for_drain_witness :
    (fun n => 2 - n : Nat → Nat) 2 = 0 ∧ 0 ≤ 2 ∧
      ∀ m, 0 ≤ m → m < 2 → (fun n => 2 - n : Nat → Nat) m ≠ 0 :=
  dev_unregister_waits_for_drain.1 (fun n => 2 - n) 5 0 2 (by decide)

/-! ### Driver version encoding (C9) -/

/-- Concatenating a shifted high part with a low part bounded by the
shift width is plain addition. -/
theorem lor_high_low (x y k : Nat) (hy : y < 2 ^ k) :
    (x <<< k) ||| y = 2 ^ k * x + y := by
  apply Nat.eq_of_testBit_eq
  intro j
  rw [Nat.testBit_or, Nat.testBit_shiftLeft]
  rcases Nat.lt_or_ge j k with hj | hj
  · have h1 : ¬ j ≥ k := by omega
    have hmod : (2 ^ k * x + y) % 2 ^ k = y := by
      rw [Nat.mul_add_mod]
      exact Nat.mod_eq_of_lt hy
    have h2 := Nat.testBit_mod_two_pow (2 ^ k * x + y) k j
    rw [hmod] at h2
    simp [h1, h2, hj]
  · have hylow : Nat.testBit y j = false :=
      Nat.testBit_lt_two_pow
        (lt_of_lt_of_le hy (Nat.pow_le_pow_right (by norm_num) hj))
    have hdiv : (2 ^ k * x + y) / 2 ^ k = x := by
      rw [Nat.mul_add_div (Nat.two_pow_pos k), Nat.div_eq_of_lt hy, Nat.add_zero]
    have h3 : Nat.testBit (2 ^ k * x + y) j = Nat.testBit x (j - k) := by
      conv_lhs => rw [show j = k + (j - k) by omega]
      rw [← Nat.testBit_shiftRight, Nat.shiftRight_eq_div_pow, hdiv]
    simp [hj, hylow, h3]

/-- Masking with 0xFF is reduction modulo 256. -/
theorem and_255_eq_mod (x : Nat) : x &&& 0xFF = x % 256 := by
  have h := Nat.and_pow_two_sub_one_eq_mod x 8
  norm_num at h
  exact h

/-- The version constructor in plain arithmetic. -/
theorem ver_arith (a b c : Nat) :
    RTDM_DRIVER_VER a b c =
      65536 * (a % 256) + 256 * (b % 256) + c % 256 := by
  rw [RTDM_DRIVER_VER, and_255_eq_mod, and_255_eq_mod, and_255_eq_mod]
  have hb8 : (b % 256) <<< 8 < 2 ^ 16 := by
    rw [Nat.shiftLeft_eq]
    have : b % 256 < 256 := Nat.mod_lt _ (by norm_num)
    norm_num
    omega
  rw [lor_high_low (a % 256) ((b % 256) <<< 8) 16 hb8]
  have hsplit : 2 ^ 16 * (a % 256) + (b % 256) <<< 8 =
      (2 ^ 8 * (a % 256) + b % 256) <<< 8 := by
    simp only [Nat.shiftLeft_eq]
    ring
  have hc8 : c % 256 < 2 ^ 8 := by
    have : c % 256 < 256 := Nat.mod_lt _ (by norm_num)
    omega
  rw [hsplit, lor_high_low (2 ^ 8 * (a % 256) + b % 256) (c % 256) 8 hc8]
  ring

/-- C9: the driver version encoding round-trips — extracting the major,
minor and patch fields from RTDM_DRIVER_VER(major, minor, patch) gives
back the inputs reduced modulo 256. -/
theorem driver_ver_roundtrip (major minor patch : Nat) :
    RTDM_DRIVER_MAJOR_VER (RTDM_DRIVER_VER major minor patch) = major % 256 ∧
    RTDM_DRIVER_MINOR_VER (RTDM_DRIVER_VER major minor patch) = minor % 256 ∧
    RTDM_DRIVER_PATCH_VER (RTDM_DRIVER_VER major minor patch) = patch % 256 := by
  have hv := ver_arith major minor patch
  refine ⟨?_, ?_, ?_⟩
  · rw [RTDM_DRIVER_MAJOR_VER, hv, Nat.shiftRight_eq_div_pow, and_255_eq_mod]
    norm_num
    omega
  · rw [RTDM_DRIVER_MINOR_VER, hv, Nat.shiftRight_eq_div_pow, and_255_eq_mod]
    norm_num
    omega
  · rw [RTDM_DRIVER_PATCH_VER, hv, and_255_eq_mod]
    omega

end Xenomai
